import Mathlib

/-!
Verification development for the bag-score-lab repository.

The repository sends a captured face photo to a vision LLM endpoint
(Gemini or OpenAI) and normalizes the raw model reply into a bounded
`EyebagAnalysis` record.  The normalization logic lives in
`analyzeEyebags` in `src/src/lib/gemini.ts` (Gemini, 4-level severity
schema) and in the two `OpenAIAnalyzer` copies of `src/unnamed/part_001`
(4-level schema and 10-level schema with optional fields).

This file shallowly embeds that logic:
  * JSON values are the inductive `Json`; JavaScript numbers are modelled
    as `JsNum` (an integer or NaN; JSON text in this app carries integer
    scores, and the claims only concern integer inputs, so the model
    restricts JSON numerals to `Int` while keeping NaN, which arises from
    JavaScript's ToNumber coercion of non-numeric truthy values inside
    `Math.min(100, Math.max(0, x))`).
  * JavaScript property access yields `Option Json` (`none` = undefined),
    truthiness is `truthy`, and ECMAScript ToNumber / ToString coercions
    are `toNumber` / `jsCoerceString` (restricted to the integer-literal
    fragment of the numeric-string grammar).
  * The `JSON.parse` builtin is an external platform collaborator and is
    passed in abstractly as `parse : String → Option Json`
    (`none` = the parse throws); the fence-stripping and brace-extraction
    string transformations of the fallback chain are implemented
    concretely from the source regexes.
  * Thrown exceptions surface as `AnalyzeOutcome.thrown`.
-/

namespace BagScoreLab

/-- Model of a JSON value produced by `JSON.parse`.  Object fields keep
their textual order; duplicate keys are resolved by `lookupLast` (last
assignment wins, as in JavaScript). -/
inductive Json where
  | null : Json
  | bool (b : Bool) : Json
  | num (n : Int) : Json
  | str (s : String) : Json
  | arr (elems : List Json) : Json
  | obj (fields : List (String × Json)) : Json

/-- JavaScript truthiness of a parsed JSON value.  `NaN` and `-0` are
falsy in JavaScript but `JSON.parse` never produces them. -/
def truthy : Json → Bool
  | Json.null => false
  | Json.bool b => b
  | Json.num n => !(n == 0)
  | Json.str s => !(s == "")
  | Json.arr _ => true
  | Json.obj _ => true

/-- Last binding of a key in an object's field list (JavaScript objects
keep the last assignment for a repeated key). -/
def lookupLast (fields : List (String × Json)) (key : String) : Option Json :=
  match fields with
  | [] => none
  | (k, v) :: rest =>
    match lookupLast rest key with
    | some w => some w
    | none => if k = key then some v else none

/-- JavaScript property access `v.key` on a parsed JSON value:
`some` = the property value, `none` = undefined.  Access on `null`
throws in JavaScript and is handled separately by the callers. -/
def getField : Json → String → Option Json
  | Json.obj fields, key => lookupLast fields key
  | _, _ => none

/-- JavaScript index access `v[0]`. -/
def getIndex0 : Json → Option Json
  | Json.arr xs => xs.head?
  | Json.obj fields => lookupLast fields "0"
  | Json.str s => s.data.head?.map (fun c => Json.str (String.mk [c]))
  | _ => none

/-- Optional-chaining property step `o?.key`: short-circuits on
null/undefined. -/
def optGet (o : Option Json) (key : String) : Option Json :=
  match o with
  | some Json.null => none
  | some j => getField j key
  | none => none

/-- Optional-chaining index step `o?.[0]`. -/
def optIdx0 (o : Option Json) : Option Json :=
  match o with
  | some Json.null => none
  | some j => getIndex0 j
  | none => none

/-- Truthiness of a possibly-undefined value (undefined is falsy). -/
def truthyO (o : Option Json) : Bool :=
  match o with
  | some j => truthy j
  | none => false

/-- JavaScript number resulting from a coercion: an integer or NaN. -/
inductive JsNum where
  | nan : JsNum
  | int (n : Int) : JsNum

/-- Whitespace class used for the `\s` regex class, `trim`, and the
`Number` coercion (ASCII whitespace; the full Unicode class is not
exercised by this repository). -/
def isWs (c : Char) : Bool :=
  c == ' ' || c == '\t' || c == '\n' || c == '\r' || c == '\x0b' || c == '\x0c'

/-- Drop leading whitespace. -/
def dropLeadWs (cs : List Char) : List Char :=
  cs.dropWhile isWs

/-- JavaScript `String.prototype.trim`. -/
def jsTrim (cs : List Char) : List Char :=
  ((cs.dropWhile isWs).reverse.dropWhile isWs).reverse

/-- The backtick character (code point 96). -/
def backtick : Char := Char.ofNat 96

/-- Strip a literal three-backtick marker from the front of a character
list, if present. -/
def afterTicks : List Char → Option (List Char)
  | c1 :: c2 :: c3 :: rest =>
    if c1 = backtick ∧ c2 = backtick ∧ c3 = backtick then some rest else none
  | _ => none

/-- Consume an optional case-insensitive `json` language tag, as the
`(?:json)?` group of the fence-stripping regex does. -/
def stripJsonTag (cs : List Char) : List Char :=
  match cs with
  | c1 :: c2 :: c3 :: c4 :: rest =>
    if c1.toLower = 'j' ∧ c2.toLower = 's' ∧ c3.toLower = 'o' ∧ c4.toLower = 'n'
    then rest else cs
  | _ => cs

/-- Model of `.replace(/^\s*BTBTBT(?:json)?\s*./i, ..)` where BT is a
backtick: remove leading whitespace, an opening fence and an optional
`json` tag; if the anchored regex does not match, the string is
unchanged. -/
def stripLeadFence (cs : List Char) : List Char :=
  match afterTicks (dropLeadWs cs) with
  | some rest => dropLeadWs (stripJsonTag rest)
  | none => cs

/-- Model of `.replace(/BTBTBT\s*$/i, ..)`: remove a closing fence
followed only by whitespace; otherwise the string is unchanged.  The
regex has at most one match position because everything after the
matched fence must be whitespace. -/
def stripTrailFence (cs : List Char) : List Char :=
  match afterTicks (cs.reverse.dropWhile isWs) with
  | some rest => rest.reverse
  | none => cs

/-- The fence-stripped, trimmed candidate text of the fallback chain:
`analysisText.replace(leadFence, '').replace(trailFence, '').trim()`. -/
def strippedOf (text : String) : String :=
  String.mk (jsTrim (stripTrailFence (stripLeadFence text.data)))

/-- Model of `text.match(/\x7b[\s\S]*\x7d/)`: the substring from the
first opening brace to the last closing brace after it (the regex is
greedy), or `none` when no such substring exists. -/
def braceExtract (cs : List Char) : Option (List Char) :=
  let fromBrace := cs.dropWhile (fun c => !(c = Char.ofNat 123))
  let upTo := (fromBrace.reverse.dropWhile (fun c => !(c = Char.ofNat 125))).reverse
  if upTo.isEmpty then none else some upTo

/-- Numeric value of a nonempty digit string. -/
def digitsVal (cs : List Char) : Option Nat :=
  if cs ≠ [] ∧ cs.all (fun c => c.isDigit) then
    some (cs.foldl (fun acc c => acc * 10 + (c.toNat - 48)) 0)
  else none

/-- ECMAScript `ToNumber` on a string, restricted to the integer-literal
fragment of the grammar (optional sign, digits); a blank string is 0 and
anything else is NaN.  Fractional, exponent and radix-prefixed literals
do not occur in this application's data. -/
def strToNumber (s : String) : JsNum :=
  match jsTrim s.data with
  | [] => JsNum.int 0
  | '+' :: cs => (digitsVal cs).elim JsNum.nan (fun n => JsNum.int (n : Int))
  | '-' :: cs => (digitsVal cs).elim JsNum.nan (fun n => JsNum.int (-(n : Int)))
  | cs => (digitsVal cs).elim JsNum.nan (fun n => JsNum.int (n : Int))

mutual
/-- ECMAScript `ToString` of a parsed JSON value (arrays join their
elements with commas, objects print as `[object Object]`). -/
def jsCoerceString : Json → String
  | Json.null => "null"
  | Json.bool b => if b then "true" else "false"
  | Json.num n => toString n
  | Json.str s => s
  | Json.arr xs => String.intercalate "," (jsElemStrings xs)
  | Json.obj _ => "[object Object]"

/-- Array elements under `Array.prototype.toString`: null elements print
as the empty string. -/
def jsElemStrings : List Json → List String
  | [] => []
  | Json.null :: rest => "" :: jsElemStrings rest
  | j :: rest => jsCoerceString j :: jsElemStrings rest
end

/-- ECMAScript `ToNumber` of a parsed JSON value, as invoked by
`Math.min` / `Math.max`. -/
def toNumber (j : Json) : JsNum :=
  match j with
  | Json.null => JsNum.int 0
  | Json.bool b => JsNum.int (if b then 1 else 0)
  | Json.num n => JsNum.int n
  | Json.str s => strToNumber s
  | Json.arr xs => strToNumber (jsCoerceString (Json.arr xs))
  | Json.obj _ => JsNum.nan

/-- Clamp a coerced value as `Math.min(100, Math.max(0, j))` does:
`Math.max` and `Math.min` apply `ToNumber` to their argument and
propagate NaN. -/
def clampRaw (j : Json) : JsNum :=
  match toNumber j with
  | JsNum.nan => JsNum.nan
  | JsNum.int n => JsNum.int (min 100 (max 0 n))

/-- Model of `Math.min(100, Math.max(0, v || 0))` on a possibly-missing
field value: undefined or falsy values are replaced by 0 before
clamping. -/
def clampNum (v : Option Json) : JsNum :=
  match v with
  | none => JsNum.int 0
  | some j => if truthy j then clampRaw j else JsNum.int 0

/-- The 4-level severity enum of `gemini.ts` and the first
`OpenAIAnalyzer`. -/
def severity4 : List String := ["minimal", "mild", "moderate", "severe"]

/-- The 10-level severity enum of the second `OpenAIAnalyzer`. -/
def severity10 : List String :=
  ["none", "very_minimal", "minimal", "very_mild", "mild", "moderate",
   "moderately_severe", "severe", "very_severe", "extreme"]

/-- Model of `validList.includes(v.severity) ? v.severity : 'moderate'`:
`includes` uses strict equality, so only a string can be a member. -/
def pickSeverity (validList : List String) (v : Option Json) : String :=
  match v with
  | some (Json.str s) => if validList.contains s then s else "moderate"
  | _ => "moderate"

/-- The fallback recommendation used when the field is not an array. -/
def fallbackRec : String :=
  "Consider consulting with a healthcare professional for personalized advice"

/-- Model of `Array.isArray(r) ? r.slice(0, 6) : [fallbackRec]`. -/
def pickRecs (v : Option Json) : List Json :=
  match v with
  | some (Json.arr xs) => xs.take 6
  | _ => [Json.str fallbackRec]

/-- The result record handed to the UI (`EyebagAnalysis` of
`AnalysisResults.tsx`).  The three optional fields are only produced by
the 10-level variant; a missing key of the returned object literal is
`none`.  Scores are JavaScript numbers, recommendation and observation
elements are whatever JSON values the model sent (the TypeScript `string[]`
annotation is not checked at runtime). -/
structure EyebagAnalysis where
  darkness : JsNum
  puffiness : JsNum
  overallScore : JsNum
  severity : String
  confidenceScore : Option JsNum := none
  lightingQuality : Option Json := none
  observations : Option (List Json) := none
  recommendations : List Json

/-- Sanitization pass of the 4-level variants (`gemini.ts` lines 105-115
and the first `OpenAIAnalyzer`): clamp the three scores, validate
severity against the 4-level enum, truncate recommendations.  Property
access on `null` throws a TypeError, modelled as `none`. -/
def sanitize4 (analysis : Json) : Option EyebagAnalysis :=
  match analysis with
  | Json.null => none
  | _ => some {
      darkness := clampNum (getField analysis "darkness")
      puffiness := clampNum (getField analysis "puffiness")
      overallScore := clampNum (getField analysis "overallScore")
      severity := pickSeverity severity4 (getField analysis "severity")
      recommendations := pickRecs (getField analysis "recommendations") }

/-- Sanitization pass of the 10-level variant (`part_001` lines 285-298):
additionally passes `confidenceScore` through clamped when truthy,
`lightingQuality` when truthy, and `observations` when an array. -/
def sanitize10 (analysis : Json) : Option EyebagAnalysis :=
  match analysis with
  | Json.null => none
  | _ => some {
      darkness := clampNum (getField analysis "darkness")
      puffiness := clampNum (getField analysis "puffiness")
      overallScore := clampNum (getField analysis "overallScore")
      severity := pickSeverity severity10 (getField analysis "severity")
      confidenceScore :=
        match getField analysis "confidenceScore" with
        | some j => if truthy j then some (clampRaw j) else none
        | none => none
      lightingQuality :=
        match getField analysis "lightingQuality" with
        | some j => if truthy j then some j else none
        | none => none
      observations :=
        match getField analysis "observations" with
        | some (Json.arr xs) => some xs
        | _ => none
      recommendations := pickRecs (getField analysis "recommendations") }

/-- The fixed default object substituted when every parse attempt fails
(identical in all three analyzer variants). -/
def defaultAnalysisJson : Json :=
  Json.obj [
    ("darkness", Json.num 50),
    ("puffiness", Json.num 50),
    ("overallScore", Json.num 50),
    ("severity", Json.str "moderate"),
    ("recommendations", Json.arr [
      Json.str "Get adequate sleep (7-9 hours per night)",
      Json.str "Stay hydrated by drinking plenty of water",
      Json.str "Use a cold compress to reduce puffiness"])]

/-- The sanitized form of the default object (the same record under both
sanitizers, since "moderate" belongs to both enums and the optional
fields are absent). -/
def defaultEyebagAnalysis : EyebagAnalysis :=
  { darkness := JsNum.int 50
    puffiness := JsNum.int 50
    overallScore := JsNum.int 50
    severity := "moderate"
    recommendations := [
      Json.str "Get adequate sleep (7-9 hours per night)",
      Json.str "Stay hydrated by drinking plenty of water",
      Json.str "Use a cold compress to reduce puffiness"] }

/-- The catch-block recovery of the parse fallback chain, entered when
the direct `JSON.parse(analysisText)` throws: try the fence-stripped
text (when nonempty), then the brace-extracted substring, then the fixed
default.  A successfully parsed but falsy value leaves `analysis` falsy,
so the chain continues past it, exactly as the `if (!analysis)` guards
do. -/
def catchRecover (parse : String → Option Json) (text : String) : Json :=
  let stripped := strippedOf text
  let afterStrip : Option Json :=
    if stripped = "" then none
    else
      match parse stripped with
      | some v => if truthy v then some v else none
      | none => none
  match afterStrip with
  | some v => v
  | none =>
    match braceExtract text.data with
    | some sub =>
      match parse (String.mk sub) with
      | some w => if truthy w then w else defaultAnalysisJson
      | none => defaultAnalysisJson
    | none => defaultAnalysisJson

/-- Outcome of one `analyzeEyebags` call: a rejected promise (the thrown
error's message) or a returned result. -/
inductive AnalyzeOutcome where
  | thrown (msg : String) : AnalyzeOutcome
  | returned (result : EyebagAnalysis) : AnalyzeOutcome

/-- The shared parse-and-sanitize tail of `analyzeEyebags`, starting
from the extracted message content (a JavaScript value, `none` =
undefined).  `JSON.parse` coerces its argument to a string; if that
parse throws, the catch block calls `.replace` on the content, which is
a TypeError unless the content is a string; sanitizing `null` (the
parse of the text "null") also throws. -/
def runChain (parse : String → Option Json)
    (sanitize : Json → Option EyebagAnalysis) (content : Option Json) :
    AnalyzeOutcome :=
  let text : String :=
    match content with
    | none => "undefined"
    | some j => jsCoerceString j
  match parse text with
  | some v =>
    match sanitize v with
    | some r => AnalyzeOutcome.returned r
    | none => AnalyzeOutcome.thrown "TypeError: cannot read properties of null"
  | none =>
    match content with
    | some (Json.str s) =>
      match sanitize (catchRecover parse s) with
      | some r => AnalyzeOutcome.returned r
      | none => AnalyzeOutcome.thrown "TypeError: cannot read properties of null"
    | _ => AnalyzeOutcome.thrown "TypeError: analysisText.replace is not a function"

/-- A vendor HTTP response as the analyzers consume it: the `ok` flag
and status of `fetch`, and the parsed body of `response.json()`
(`none` = the body was not JSON and `response.json()` rejected).
`response.text()` is read only for diagnostic logging on the error
branch and is not modelled. -/
structure FetchResponse where
  ok : Bool
  status : Nat
  statusText : String
  body : Option Json

/-- The nested text field of the Gemini envelope:
`result.candidates?.[0]?.content?.parts?.[0]?.text`, with nullish
short-circuiting at each step and the final `?? ''` collapsing null. -/
def geminiText (env : Json) : Option Json :=
  match optGet (optIdx0 (optGet (optGet (optIdx0
      (optGet (some env) "candidates")) "content") "parts")) "text" with
  | some Json.null => none
  | o => o

/-- `GeminiAnalyzer.analyzeEyebags` (gemini.ts): reject on a non-ok HTTP
status, validate the envelope, extract the answer text (defaulting to
the empty string), then run the shared parse chain with the 4-level
sanitizer.  The outer try/catch rethrows every error. -/
def geminiAnalyzeEyebags (parse : String → Option Json)
    (resp : FetchResponse) : AnalyzeOutcome :=
  if resp.ok = false then
    AnalyzeOutcome.thrown
      ("Gemini API error: " ++ toString resp.status ++ " " ++ resp.statusText)
  else
    match resp.body with
    | none => AnalyzeOutcome.thrown "SyntaxError: response body is not JSON"
    | some env =>
      match env with
      | Json.null => AnalyzeOutcome.thrown "TypeError: cannot read properties of null"
      | _ =>
        let cands := getField env "candidates"
        if truthyO cands = false then
          AnalyzeOutcome.thrown "Invalid response from Gemini API"
        else if truthyO (optIdx0 cands) = false then
          AnalyzeOutcome.thrown "Invalid response from Gemini API"
        else if truthyO (optGet (optIdx0 cands) "content") = false then
          AnalyzeOutcome.thrown "Invalid response from Gemini API"
        else
          let tv : Json :=
            match geminiText env with
            | none => Json.str ""
            | some j => j
          runChain parse sanitize4 (some tv)

/-- `OpenAIAnalyzer.analyzeEyebags` (both copies in `part_001` share
this envelope logic and differ only in the sanitizer): reject on a
non-ok HTTP status, validate `choices[0].message`, then run the shared
parse chain on `message.content` (accessed without `??`, so a missing
content stays undefined). -/
def openaiAnalyzeEyebagsWith (sanitize : Json → Option EyebagAnalysis)
    (parse : String → Option Json) (resp : FetchResponse) : AnalyzeOutcome :=
  if resp.ok = false then
    AnalyzeOutcome.thrown
      ("OpenAI API error: " ++ toString resp.status ++ " " ++ resp.statusText)
  else
    match resp.body with
    | none => AnalyzeOutcome.thrown "SyntaxError: response body is not JSON"
    | some env =>
      match env with
      | Json.null => AnalyzeOutcome.thrown "TypeError: cannot read properties of null"
      | _ =>
        let choices := getField env "choices"
        if truthyO choices = false then
          AnalyzeOutcome.thrown "Invalid response from OpenAI API"
        else if truthyO (optIdx0 choices) = false then
          AnalyzeOutcome.thrown "Invalid response from OpenAI API"
        else if truthyO (optGet (optIdx0 choices) "message") = false then
          AnalyzeOutcome.thrown "Invalid response from OpenAI API"
        else
          runChain parse sanitize (optGet (optGet (optIdx0 choices) "message") "content")

/-- The first `OpenAIAnalyzer` of `part_001` (4-level schema). -/
def openaiAnalyzeEyebags (parse : String → Option Json)
    (resp : FetchResponse) : AnalyzeOutcome :=
  openaiAnalyzeEyebagsWith sanitize4 parse resp

/-- The second `OpenAIAnalyzer` of `part_001` (10-level schema with
optional fields). -/
def openaiAnalyzeEyebags10 (parse : String → Option Json)
    (resp : FetchResponse) : AnalyzeOutcome :=
  openaiAnalyzeEyebagsWith sanitize10 parse resp

/-- A successful Gemini envelope carrying the given answer text, for
exercising the analyzers end to end. -/
def mkGeminiResp (text : String) : FetchResponse :=
  { ok := true
    status := 200
    statusText := "OK"
    body := some (Json.obj [("candidates", Json.arr [Json.obj
      [("content", Json.obj [("parts", Json.arr [Json.obj
        [("text", Json.str text)]])])]])]) }

/-- A successful OpenAI envelope carrying the given answer text. -/
def mkOpenAIResp (text : String) : FetchResponse :=
  { ok := true
    status := 200
    statusText := "OK"
    body := some (Json.obj [("choices", Json.arr [Json.obj
      [("message", Json.obj [("content", Json.str text)])]])]) }

/-- A JSON text wrapped in a Markdown code fence tagged `json`:
the string BTBTBTjson, a newline, the text, a newline, BTBTBT (BT the
backtick). -/
def fenceTagged (j : String) : String :=
  String.mk (backtick :: backtick :: backtick :: 'j' :: 's' :: 'o' :: 'n' :: '\n' ::
    (j.data ++ ('\n' :: backtick :: backtick :: backtick :: [])))

/-- A JSON text wrapped in an untagged Markdown code fence. -/
def fencePlain (j : String) : String :=
  String.mk (backtick :: backtick :: backtick :: '\n' ::
    (j.data ++ ('\n' :: backtick :: backtick :: backtick :: [])))

/-- Specification predicate: the outcome is a rejected promise. -/
def throwsOutcome : AnalyzeOutcome → Prop
  | AnalyzeOutcome.thrown _ => True
  | AnalyzeOutcome.returned _ => False

/-- Specification predicate: a JavaScript number that lies in the
interval from 0 to 100 (NaN does not). -/
def inRange (x : JsNum) : Prop :=
  ∃ n : Int, x = JsNum.int n ∧ 0 ≤ n ∧ n ≤ 100

/-- Specification predicate for a clamped score field: whenever the
output is a number it lies in the interval from 0 to 100, an input at
most 0 yields 0, and an input at least 100 yields 100. -/
def clampContractO (o : Option Json) (out : JsNum) : Prop :=
  (∀ n : Int, out = JsNum.int n → 0 ≤ n ∧ n ≤ 100) ∧
  (∀ m : Int, o = some (Json.num m) → m ≤ 0 → out = JsNum.int 0) ∧
  (∀ m : Int, o = some (Json.num m) → 100 ≤ m → out = JsNum.int 100)

/-- Specification predicate for the severity field: an enum member is
returned unchanged and everything else (non-member string, non-string,
absent) becomes "moderate". -/
def severityContractO (validList : List String) (o : Option Json) (out : String) : Prop :=
  (∀ s : String, o = some (Json.str s) → validList.contains s = true → out = s) ∧
  (∀ s : String, o = some (Json.str s) → validList.contains s = false → out = "moderate") ∧
  ((∀ s : String, o ≠ some (Json.str s)) → out = "moderate")

/-- Specification predicate for the recommendations field: a sequence
longer than 6 is truncated to its first 6 elements in order, and a
non-sequence value becomes the single fixed fallback. -/
def recsContractO (o : Option Json) (out : List Json) : Prop :=
  (∀ xs : List Json, o = some (Json.arr xs) → 6 < xs.length →
    out = xs.take 6 ∧ out.length = 6) ∧
  ((∀ xs : List Json, o ≠ some (Json.arr xs)) → out = [Json.str fallbackRec])

/-- A parse that fails on every input, for exercising the
no-parseable-JSON path. -/
def alwaysFailParse : String → Option Json := fun _ => none

/-- A parse that returns an object whose darkness value is itself an
object (a well-formed JSON shape the model could produce). -/
def c1Parse : String → Option Json :=
  fun _ => some (Json.obj [("darkness", Json.obj [])])

/-- The result the 4-level sanitizer produces for that object: the
darkness clamp coerces the object to NaN. -/
def c1Cex : EyebagAnalysis :=
  { darkness := JsNum.nan
    puffiness := JsNum.int 0
    overallScore := JsNum.int 0
    severity := "moderate"
    recommendations := [Json.str fallbackRec] }

/-- A parsed object carrying a lightingQuality value outside the
declared enum. -/
def c6Obj : Json := Json.obj [("lightingQuality", Json.str "banana")]

/-- The 10-level sanitizer's output for `c6Obj`: the out-of-enum value
passes through. -/
def c6Cex : EyebagAnalysis :=
  { darkness := JsNum.int 0
    puffiness := JsNum.int 0
    overallScore := JsNum.int 0
    severity := "moderate"
    lightingQuality := some (Json.str "banana")
    recommendations := [Json.str fallbackRec] }

/-- A one-character JSON text used to exercise the fence equivalence. -/
def c7Json : String := String.mk ['o']

/-- A parse that recognizes exactly `c7Json` as an empty object. -/
def c7Parse : String → Option Json :=
  fun s => if s = c7Json then some (Json.obj []) else none

/-- A failing vendor response. -/
def c5Resp : FetchResponse :=
  { ok := false
    status := 500
    statusText := "Internal Server Error"
    body := none }

/-- A parsed object with in-, below- and above-range scores. -/
def c1wObj : Json :=
  Json.obj [("darkness", Json.num (-30)), ("puffiness", Json.num 500),
    ("overallScore", Json.num 42)]

/-- Its sanitized form: the clamp maps -30 to 0 and 500 to 100. -/
def c1wRes : EyebagAnalysis :=
  { darkness := JsNum.int 0
    puffiness := JsNum.int 100
    overallScore := JsNum.int 42
    severity := "moderate"
    recommendations := [Json.str fallbackRec] }

/-- A parsed object whose severity is a valid enum member. -/
def c3Obj : Json := Json.obj [("severity", Json.str "severe")]

/-- Its sanitized form under either variant. -/
def c3Res : EyebagAnalysis :=
  { darkness := JsNum.int 0
    puffiness := JsNum.int 0
    overallScore := JsNum.int 0
    severity := "severe"
    recommendations := [Json.str fallbackRec] }

/-- A parsed object whose recommendations sequence has 7 elements. -/
def c4Obj : Json :=
  Json.obj [("recommendations", Json.arr [Json.num 1, Json.num 2, Json.num 3,
    Json.num 4, Json.num 5, Json.num 6, Json.num 7])]

/-- Its sanitized form: the first 6 elements survive. -/
def c4Res : EyebagAnalysis :=
  { darkness := JsNum.int 0
    puffiness := JsNum.int 0
    overallScore := JsNum.int 0
    severity := "moderate"
    recommendations := [Json.num 1, Json.num 2, Json.num 3, Json.num 4,
      Json.num 5, Json.num 6] }

/-- A parsed object exercising all three optional fields with values the
spec calls ill-typed. -/
def c6wObj : Json :=
  Json.obj [("confidenceScore", Json.num 500),
    ("lightingQuality", Json.str "banana"),
    ("observations", Json.arr [Json.num 3])]

/-- Its sanitized form under the 10-level variant. -/
def c6wRes : EyebagAnalysis :=
  { darkness := JsNum.int 0
    puffiness := JsNum.int 0
    overallScore := JsNum.int 0
    severity := "moderate"
    confidenceScore := some (JsNum.int 100)
    lightingQuality := some (Json.str "banana")
    observations := some [Json.num 3]
    recommendations := [Json.str fallbackRec] }

/-- A parsed object whose confidenceScore is exactly 0. -/
def c9Obj : Json := Json.obj [("confidenceScore", Json.num 0)]

/-- Its sanitized form: confidenceScore is omitted. -/
def c9Res : EyebagAnalysis :=
  { darkness := JsNum.int 0
    puffiness := JsNum.int 0
    overallScore := JsNum.int 0
    severity := "moderate"
    recommendations := [Json.str fallbackRec] }

/-- A parsed object whose recommendations sequence is empty. -/
def c10Obj : Json := Json.obj [("recommendations", Json.arr [])]

/-- Its sanitized form: the empty sequence passes through. -/
def c10Res : EyebagAnalysis :=
  { darkness := JsNum.int 0
    puffiness := JsNum.int 0
    overallScore := JsNum.int 0
    severity := "moderate"
    recommendations := [] }

/-- Dropping while a predicate holds never lengthens a list. -/
theorem length_dropWhile_le' (p : Char → Bool) (l : List Char) :
    (List.dropWhile p l).length ≤ l.length := by
  induction l with
  | nil => simp
  | cons a l2 ih =>
    rw [List.dropWhile_cons]
    split
    · simp only [List.length_cons]
      omega
    · simp

/-- A list left fixed by `dropWhile` stays fixed when material is
appended behind it. -/
theorem dropWhile_append_self (p : Char → Bool) (l m : List Char)
    (h : List.dropWhile p l = l) (hne : l ≠ []) :
    List.dropWhile p (l ++ m) = l ++ m := by
  cases l with
  | nil => exact absurd rfl hne
  | cons a l2 =>
    have hpa : p a = false := by
      by_contra hp
      have hp' : p a = true := by
        cases hpa : p a
        · exact absurd hpa hp
        · rfl
      rw [List.dropWhile_cons_of_pos hp'] at h
      have := congrArg List.length h
      simp at this
      have hle := length_dropWhile_le' p l2
      omega
    rw [List.cons_append, List.dropWhile_cons_of_neg (by simp [hpa])]

/-- Removing the trailing fence from text ending in newline-fence leaves
the text and the newline. -/
theorem stripTrailFence_append (l : List Char) :
    stripTrailFence (l ++ ('\n' :: backtick :: backtick :: backtick :: [])) =
      l ++ ['\n'] := by
  unfold stripTrailFence
  rw [List.reverse_append]
  rw [show List.reverse ('\n' :: backtick :: backtick :: backtick :: []) =
        backtick :: backtick :: backtick :: '\n' :: [] from rfl]
  rw [show (backtick :: backtick :: backtick :: '\n' :: []) ++ l.reverse =
        backtick :: backtick :: backtick :: '\n' :: l.reverse from rfl]
  rw [show List.dropWhile isWs (backtick :: backtick :: backtick :: '\n' :: l.reverse) =
        backtick :: backtick :: backtick :: '\n' :: l.reverse from rfl]
  show List.reverse ('\n' :: l.reverse) = l ++ ['\n']
  rw [List.reverse_cons, List.reverse_reverse]

/-- Trimming text-plus-newline gives back an already-trimmed nonempty
text. -/
theorem jsTrim_append_newline (l : List Char)
    (hhead : List.dropWhile isWs l = l) (hne : l ≠ [])
    (htail : List.dropWhile isWs l.reverse = l.reverse) :
    jsTrim (l ++ ['\n']) = l := by
  unfold jsTrim
  rw [dropWhile_append_self isWs l ['\n'] hhead hne]
  rw [List.reverse_append]
  rw [show List.reverse ['\n'] ++ l.reverse = '\n' :: l.reverse from rfl]
  rw [show List.dropWhile isWs ('\n' :: l.reverse) = List.dropWhile isWs l.reverse from rfl]
  rw [htail, List.reverse_reverse]

/-- Fence-stripping the tagged fence around a trimmed nonempty text
recovers the text. -/
theorem strippedOf_fenceTagged (j : String)
    (hhead : List.dropWhile isWs j.data = j.data)
    (htail : List.dropWhile isWs j.data.reverse = j.data.reverse)
    (hne : j.data ≠ []) :
    strippedOf (fenceTagged j) = j := by
  unfold strippedOf
  show String.mk (jsTrim (stripTrailFence (stripLeadFence
    (backtick :: backtick :: backtick :: 'j' :: 's' :: 'o' :: 'n' :: '\n' ::
      (j.data ++ ('\n' :: backtick :: backtick :: backtick :: [])))))) = j
  rw [show stripLeadFence
    (backtick :: backtick :: backtick :: 'j' :: 's' :: 'o' :: 'n' :: '\n' ::
      (j.data ++ ('\n' :: backtick :: backtick :: backtick :: []))) =
    List.dropWhile isWs (j.data ++ ('\n' :: backtick :: backtick :: backtick :: [])) from rfl]
  rw [dropWhile_append_self isWs j.data _ hhead hne]
  rw [stripTrailFence_append j.data]
  rw [jsTrim_append_newline j.data hhead hne htail]

/-- The language-tag group does not consume a leading newline. -/
theorem stripJsonTag_nl (l : List Char) : stripJsonTag ('\n' :: l) = '\n' :: l := by
  cases l with
  | nil => rfl
  | cons a l2 =>
    cases l2 with
    | nil => rfl
    | cons c l3 =>
      cases l3 with
      | nil => rfl
      | cons d l4 => rfl

/-- Stripping an untagged opening fence. -/
theorem stripLeadFence_plain (l : List Char) :
    stripLeadFence (backtick :: backtick :: backtick :: '\n' :: l) =
      List.dropWhile isWs l := by
  unfold stripLeadFence
  show dropLeadWs (stripJsonTag ('\n' :: l)) = List.dropWhile isWs l
  rw [stripJsonTag_nl]
  rfl

/-- Fence-stripping the untagged fence around a trimmed nonempty text
recovers the text. -/
theorem strippedOf_fencePlain (j : String)
    (hhead : List.dropWhile isWs j.data = j.data)
    (htail : List.dropWhile isWs j.data.reverse = j.data.reverse)
    (hne : j.data ≠ []) :
    strippedOf (fencePlain j) = j := by
  unfold strippedOf
  show String.mk (jsTrim (stripTrailFence (stripLeadFence
    (backtick :: backtick :: backtick :: '\n' ::
      (j.data ++ ('\n' :: backtick :: backtick :: backtick :: [])))))) = j
  rw [stripLeadFence_plain]
  rw [dropWhile_append_self isWs j.data _ hhead hne]
  rw [stripTrailFence_append j.data]
  rw [jsTrim_append_newline j.data hhead hne htail]

/-- When the fence-stripped text parses to an object, the catch-block
recovery returns exactly that object. -/
theorem catchRecover_parsed (parse : String → Option Json) (text j : String)
    (fields : List (String × Json))
    (hstrip : strippedOf text = j) (hne : j ≠ "")
    (hj : parse j = some (Json.obj fields)) :
    catchRecover parse text = Json.obj fields := by
  simp only [catchRecover]
  rw [hstrip, if_neg hne, hj]
  rfl

/-- The 4-level sanitizer, solved for the result record. -/
theorem sanitize4_eq (v : Json) (r : EyebagAnalysis) (h : sanitize4 v = some r) :
    r = { darkness := clampNum (getField v "darkness")
          puffiness := clampNum (getField v "puffiness")
          overallScore := clampNum (getField v "overallScore")
          severity := pickSeverity severity4 (getField v "severity")
          recommendations := pickRecs (getField v "recommendations") } := by
  cases v with
  | null => exact Option.noConfusion h
  | bool b => exact (Option.some.inj h).symm
  | num n => exact (Option.some.inj h).symm
  | str s => exact (Option.some.inj h).symm
  | arr xs => exact (Option.some.inj h).symm
  | obj fs => exact (Option.some.inj h).symm

/-- The 10-level sanitizer, solved for the result record. -/
theorem sanitize10_eq (v : Json) (r : EyebagAnalysis) (h : sanitize10 v = some r) :
    r = { darkness := clampNum (getField v "darkness")
          puffiness := clampNum (getField v "puffiness")
          overallScore := clampNum (getField v "overallScore")
          severity := pickSeverity severity10 (getField v "severity")
          confidenceScore :=
            match getField v "confidenceScore" with
            | some j => if truthy j then some (clampRaw j) else none
            | none => none
          lightingQuality :=
            match getField v "lightingQuality" with
            | some j => if truthy j then some j else none
            | none => none
          observations :=
            match getField v "observations" with
            | some (Json.arr xs) => some xs
            | _ => none
          recommendations := pickRecs (getField v "recommendations") } := by
  cases v with
  | null => exact Option.noConfusion h
  | bool b => exact (Option.some.inj h).symm
  | num n => exact (Option.some.inj h).symm
  | str s => exact (Option.some.inj h).symm
  | arr xs => exact (Option.some.inj h).symm
  | obj fs => exact (Option.some.inj h).symm

/-- The clamp of the sanitization pass satisfies the bounded-score
contract. -/
theorem clampNum_contractO (o : Option Json) : clampContractO o (clampNum o) := by
  refine ⟨?_, ?_, ?_⟩
  · intro n hn
    cases o with
    | none =>
      have : (0 : Int) = n := JsNum.int.inj hn
      omega
    | some j =>
      by_cases ht : truthy j = true
      · rw [show clampNum (some j) = if truthy j then clampRaw j else JsNum.int 0 from rfl,
          if_pos ht] at hn
        unfold clampRaw at hn
        cases hm : toNumber j with
        | nan => rw [hm] at hn; exact JsNum.noConfusion hn
        | int m =>
          rw [hm] at hn
          have := JsNum.int.inj hn
          omega
      · rw [show clampNum (some j) = if truthy j then clampRaw j else JsNum.int 0 from rfl,
          if_neg ht] at hn
        have : (0 : Int) = n := JsNum.int.inj hn
        omega
  · intro m hm hle
    subst hm
    by_cases hm0 : m = 0
    · subst hm0; rfl
    · have ht : truthy (Json.num m) = true := by
        simp [truthy, hm0]
      rw [show clampNum (some (Json.num m)) =
            if truthy (Json.num m) then clampRaw (Json.num m) else JsNum.int 0 from rfl,
        if_pos ht]
      show JsNum.int (min 100 (max 0 m)) = JsNum.int 0
      congr 1
      omega
  · intro m hm hge
    subst hm
    have ht : truthy (Json.num m) = true := by
      have hne : m ≠ 0 := by omega
      simp [truthy, hne]
    rw [show clampNum (some (Json.num m)) =
          if truthy (Json.num m) then clampRaw (Json.num m) else JsNum.int 0 from rfl,
      if_pos ht]
    show JsNum.int (min 100 (max 0 m)) = JsNum.int 100
    congr 1
    omega

/-- The severity validation of the sanitization pass satisfies the
enum-membership contract. -/
theorem pickSeverity_contractO (validList : List String) (o : Option Json) :
    severityContractO validList o (pickSeverity validList o) := by
  refine ⟨?_, ?_, ?_⟩
  · intro s hs hc
    subst hs
    show (if validList.contains s = true then s else "moderate") = s
    exact if_pos hc
  · intro s hs hc
    subst hs
    show (if validList.contains s = true then s else "moderate") = "moderate"
    refine if_neg ?_
    rw [hc]
    exact Bool.false_ne_true
  · intro hno
    cases o with
    | none => rfl
    | some j =>
      cases j with
      | null => rfl
      | bool b => rfl
      | num n => rfl
      | str s => exact absurd rfl (hno s)
      | arr xs => rfl
      | obj fs => rfl

/-- The recommendations handling of the sanitization pass satisfies the
truncation-and-fallback contract. -/
theorem pickRecs_contractO (o : Option Json) :
    recsContractO o (pickRecs o) := by
  constructor
  · intro xs hx hlen
    subst hx
    refine ⟨rfl, ?_⟩
    show (xs.take 6).length = 6
    rw [List.length_take]
    omega
  · intro hno
    cases o with
    | none => rfl
    | some j =>
      cases j with
      | null => rfl
      | bool b => rfl
      | num n => rfl
      | str s => rfl
      | arr xs => exact absurd rfl (hno xs)
      | obj fs => rfl

/-- When every parse attempt of the fallback chain fails, the recovery
produces the fixed default object. -/
theorem catchRecover_default (parse : String → Option Json) (text : String)
    (h2 : strippedOf text = "" ∨ parse (strippedOf text) = none)
    (h3 : ∀ sub : List Char, braceExtract text.data = some sub →
      parse (String.mk sub) = none) :
    catchRecover parse text = defaultAnalysisJson := by
  simp only [catchRecover]
  have hafter : (if strippedOf text = "" then none
      else
        match parse (strippedOf text) with
        | some v => if truthy v then some v else none
        | none => none) = (none : Option Json) := by
    rcases h2 with h2 | h2
    · rw [if_pos h2]
    · by_cases he : strippedOf text = ""
      · rw [if_pos he]
      · rw [if_neg he, h2]
  rw [hafter]
  cases hb : braceExtract text.data with
  | none => rfl
  | some sub =>
    show (match parse (String.mk sub) with
          | some w => if truthy w then w else defaultAnalysisJson
          | none => defaultAnalysisJson) = defaultAnalysisJson
    rw [h3 sub hb]

/-- When every parse attempt fails on a string content, the shared chain
returns the sanitized default. -/
theorem runChain_default (parse : String → Option Json)
    (sanitize : Json → Option EyebagAnalysis) (text : String)
    (h1 : parse text = none)
    (h2 : strippedOf text = "" ∨ parse (strippedOf text) = none)
    (h3 : ∀ sub : List Char, braceExtract text.data = some sub →
      parse (String.mk sub) = none)
    (hS : sanitize defaultAnalysisJson = some defaultEyebagAnalysis) :
    runChain parse sanitize (some (Json.str text)) =
      AnalyzeOutcome.returned defaultEyebagAnalysis := by
  simp only [runChain, jsCoerceString]
  rw [h1, catchRecover_default parse text h2 h3, hS]

/-- A successful Gemini envelope reduces the analyzer to the shared
chain on its answer text. -/
theorem gemini_mkResp (parse : String → Option Json) (text : String) :
    geminiAnalyzeEyebags parse (mkGeminiResp text) =
      runChain parse sanitize4 (some (Json.str text)) := rfl

/-- A successful OpenAI envelope reduces either analyzer variant to the
shared chain on its message content. -/
theorem openai_mkResp (sanitize : Json → Option EyebagAnalysis)
    (parse : String → Option Json) (text : String) :
    openaiAnalyzeEyebagsWith sanitize parse (mkOpenAIResp text) =
      runChain parse sanitize (some (Json.str text)) := rfl

/-- A non-ok response makes the Gemini analyzer throw before touching
the body. -/
theorem gemini_notOk (parse : String → Option Json) (resp : FetchResponse)
    (h : resp.ok = false) :
    geminiAnalyzeEyebags parse resp =
      AnalyzeOutcome.thrown
        ("Gemini API error: " ++ toString resp.status ++ " " ++ resp.statusText) := by
  simp only [geminiAnalyzeEyebags]
  rw [h]
  rfl

/-- A non-ok response makes either OpenAI analyzer variant throw before
touching the body. -/
theorem openai_notOk (sanitize : Json → Option EyebagAnalysis)
    (parse : String → Option Json) (resp : FetchResponse)
    (h : resp.ok = false) :
    openaiAnalyzeEyebagsWith sanitize parse resp =
      AnalyzeOutcome.thrown
        ("OpenAI API error: " ++ toString resp.status ++ " " ++ resp.statusText) := by
  simp only [openaiAnalyzeEyebagsWith]
  rw [h]
  rfl

/-- An empty character list makes the empty string. -/
theorem string_mk_nil : String.mk [] = "" := rfl

/-- C1 counterexample: a successfully completed `analyzeEyebags` call
whose parsed object carries a truthy non-numeric darkness value (here a
nested object) returns darkness = NaN, which does not lie in the
interval from 0 to 100, so the claimed bound does not hold for every
completed call. -/
theorem claim1_counterexample :
    geminiAnalyzeEyebags c1Parse (mkGeminiResp "x") = AnalyzeOutcome.returned c1Cex ∧
    ¬ inRange c1Cex.darkness := by
  constructor
  · rfl
  · rintro ⟨n, hn, h0, h100⟩
    exact JsNum.noConfusion hn

/-- C1 (amended): in every analyzer variant, whenever a sanitized score
field is a number it lies in the interval from 0 to 100 (a numeric input
at most 0 is mapped to 0 and one at least 100 is mapped to 100, so -30
becomes 0 and 500 becomes 100); a truthy input that does not coerce to a
number yields NaN instead of a bounded number. -/
theorem claim1_clamped (v : Json) (r4 r10 : EyebagAnalysis)
    (h4 : sanitize4 v = some r4) (h10 : sanitize10 v = some r10) :
    (clampContractO (getField v "darkness") r4.darkness ∧
     clampContractO (getField v "puffiness") r4.puffiness ∧
     clampContractO (getField v "overallScore") r4.overallScore) ∧
    (clampContractO (getField v "darkness") r10.darkness ∧
     clampContractO (getField v "puffiness") r10.puffiness ∧
     clampContractO (getField v "overallScore") r10.overallScore) := by
  rw [sanitize4_eq v r4 h4, sanitize10_eq v r10 h10]
  exact ⟨⟨clampNum_contractO _, clampNum_contractO _, clampNum_contractO _⟩,
         ⟨clampNum_contractO _, clampNum_contractO _, clampNum_contractO _⟩⟩

/-- C1 witness: the amended claim evaluated on a parsed object with
scores -30, 500 and 42. -/
theorem claim1_witness :
    (clampContractO (getField c1wObj "darkness") c1wRes.darkness ∧
     clampContractO (getField c1wObj "puffiness") c1wRes.puffiness ∧
     clampContractO (getField c1wObj "overallScore") c1wRes.overallScore) ∧
    (clampContractO (getField c1wObj "darkness") c1wRes.darkness ∧
     clampContractO (getField c1wObj "puffiness") c1wRes.puffiness ∧
     clampContractO (getField c1wObj "overallScore") c1wRes.overallScore) :=
  claim1_clamped c1wObj c1wRes c1wRes rfl rfl

/-- C2: when the raw model text contains no parseable JSON at all (the
direct parse fails, the fence-stripped parse fails or is skipped as
empty, and every brace-extraction parse fails), every analyzer variant
returns the fixed default result instead of throwing: darkness 50,
puffiness 50, overallScore 50, severity "moderate" and the three fixed
hydration, sleep and cold-compress recommendations. -/
theorem claim2_default_result (parse : String → Option Json) (text : String)
    (h1 : parse text = none)
    (h2 : strippedOf text = "" ∨ parse (strippedOf text) = none)
    (h3 : ∀ sub : List Char, braceExtract text.data = some sub →
      parse (String.mk sub) = none) :
    geminiAnalyzeEyebags parse (mkGeminiResp text) =
      AnalyzeOutcome.returned defaultEyebagAnalysis ∧
    openaiAnalyzeEyebags parse (mkOpenAIResp text) =
      AnalyzeOutcome.returned defaultEyebagAnalysis ∧
    openaiAnalyzeEyebags10 parse (mkOpenAIResp text) =
      AnalyzeOutcome.returned defaultEyebagAnalysis := by
  refine ⟨?_, ?_, ?_⟩
  · rw [gemini_mkResp]
    exact runChain_default parse sanitize4 text h1 h2 h3 rfl
  · show openaiAnalyzeEyebagsWith sanitize4 parse (mkOpenAIResp text) = _
    rw [openai_mkResp]
    exact runChain_default parse sanitize4 text h1 h2 h3 rfl
  · show openaiAnalyzeEyebagsWith sanitize10 parse (mkOpenAIResp text) = _
    rw [openai_mkResp]
    exact runChain_default parse sanitize10 text h1 h2 h3 rfl

/-- C2 witness: the default substitution evaluated on a prose reply that
parses nowhere. -/
theorem claim2_witness :
    geminiAnalyzeEyebags alwaysFailParse (mkGeminiResp "The image shows no face.") =
      AnalyzeOutcome.returned defaultEyebagAnalysis ∧
    openaiAnalyzeEyebags alwaysFailParse (mkOpenAIResp "The image shows no face.") =
      AnalyzeOutcome.returned defaultEyebagAnalysis ∧
    openaiAnalyzeEyebags10 alwaysFailParse (mkOpenAIResp "The image shows no face.") =
      AnalyzeOutcome.returned defaultEyebagAnalysis :=
  claim2_default_result alwaysFailParse "The image shows no face." rfl (Or.inr rfl)
    (fun _ _ => rfl)

/-- C3: in both schema variants, a severity value that is a member of
the variant's enum is returned unchanged, and any other severity value
(non-member string, non-string, or absent) becomes "moderate". -/
theorem claim3_severity (v : Json) (r4 r10 : EyebagAnalysis)
    (h4 : sanitize4 v = some r4) (h10 : sanitize10 v = some r10) :
    severityContractO severity4 (getField v "severity") r4.severity ∧
    severityContractO severity10 (getField v "severity") r10.severity := by
  rw [sanitize4_eq v r4 h4, sanitize10_eq v r10 h10]
  exact ⟨pickSeverity_contractO _ _, pickSeverity_contractO _ _⟩

/-- C3 witness: the severity contract evaluated on a parsed object with
severity "severe". -/
theorem claim3_witness :
    severityContractO severity4 (getField c3Obj "severity") c3Res.severity ∧
    severityContractO severity10 (getField c3Obj "severity") c3Res.severity :=
  claim3_severity c3Obj c3Res c3Res rfl rfl

/-- C4: in both schema variants, a recommendations sequence longer than
6 is truncated to exactly its first 6 elements in order, and any
non-sequence recommendations value (including absent) becomes the single
fixed fallback sequence. -/
theorem claim4_recommendations (v : Json) (r4 r10 : EyebagAnalysis)
    (h4 : sanitize4 v = some r4) (h10 : sanitize10 v = some r10) :
    recsContractO (getField v "recommendations") r4.recommendations ∧
    recsContractO (getField v "recommendations") r10.recommendations := by
  rw [sanitize4_eq v r4 h4, sanitize10_eq v r10 h10]
  exact ⟨pickRecs_contractO _, pickRecs_contractO _⟩

/-- C4 witness: the recommendations contract evaluated on a parsed
object with a 7-element sequence. -/
theorem claim4_witness :
    recsContractO (getField c4Obj "recommendations") c4Res.recommendations ∧
    recsContractO (getField c4Obj "recommendations") c4Res.recommendations :=
  claim4_recommendations c4Obj c4Res c4Res rfl rfl

/-- C5: a vendor response with a non-success HTTP status makes every
analyzer variant throw, and a returned (possibly defaulted) result is
only reachable from a successful HTTP response. -/
theorem claim5_http_error (parse : String → Option Json) (resp : FetchResponse) :
    (resp.ok = false →
      throwsOutcome (geminiAnalyzeEyebags parse resp) ∧
      throwsOutcome (openaiAnalyzeEyebags parse resp) ∧
      throwsOutcome (openaiAnalyzeEyebags10 parse resp)) ∧
    (∀ r : EyebagAnalysis,
      geminiAnalyzeEyebags parse resp = AnalyzeOutcome.returned r → resp.ok = true) ∧
    (∀ r : EyebagAnalysis,
      openaiAnalyzeEyebags parse resp = AnalyzeOutcome.returned r → resp.ok = true) ∧
    (∀ r : EyebagAnalysis,
      openaiAnalyzeEyebags10 parse resp = AnalyzeOutcome.returned r → resp.ok = true) := by
  refine ⟨?_, ?_, ?_, ?_⟩
  · intro hok
    refine ⟨?_, ?_, ?_⟩
    · rw [gemini_notOk parse resp hok]
      trivial
    · show throwsOutcome (openaiAnalyzeEyebagsWith sanitize4 parse resp)
      rw [openai_notOk sanitize4 parse resp hok]
      trivial
    · show throwsOutcome (openaiAnalyzeEyebagsWith sanitize10 parse resp)
      rw [openai_notOk sanitize10 parse resp hok]
      trivial
  · intro r hr
    cases hok : resp.ok with
    | true => rfl
    | false =>
      rw [gemini_notOk parse resp hok] at hr
      exact AnalyzeOutcome.noConfusion hr
  · intro r hr
    cases hok : resp.ok with
    | true => rfl
    | false =>
      have hr2 : openaiAnalyzeEyebagsWith sanitize4 parse resp =
        AnalyzeOutcome.returned r := hr
      rw [openai_notOk sanitize4 parse resp hok] at hr2
      exact AnalyzeOutcome.noConfusion hr2
  · intro r hr
    cases hok : resp.ok with
    | true => rfl
    | false =>
      have hr2 : openaiAnalyzeEyebagsWith sanitize10 parse resp =
        AnalyzeOutcome.returned r := hr
      rw [openai_notOk sanitize10 parse resp hok] at hr2
      exact AnalyzeOutcome.noConfusion hr2

/-- C5 witness: all three analyzers throw on a 500 response. -/
theorem claim5_witness :
    throwsOutcome (geminiAnalyzeEyebags alwaysFailParse c5Resp) ∧
    throwsOutcome (openaiAnalyzeEyebags alwaysFailParse c5Resp) ∧
    throwsOutcome (openaiAnalyzeEyebags10 alwaysFailParse c5Resp) :=
  (claim5_http_error alwaysFailParse c5Resp).1 rfl

/-- C6 counterexample: the 10-level sanitizer includes a lightingQuality
value that is not a member of the declared poor/fair/good enum, so
optional fields do not pass through only when well-typed. -/
theorem claim6_counterexample :
    sanitize10 c6Obj = some c6Cex ∧
    c6Cex.lightingQuality = some (Json.str "banana") ∧
    (["poor", "fair", "good"].contains "banana") = false :=
  ⟨rfl, rfl, rfl⟩

/-- C6 (amended): in the 10-level variant, confidenceScore appears in
the result exactly when the parsed value is truthy and is then clamped
into the interval from 0 to 100 (so out-of-range numbers still appear,
clamped); lightingQuality appears exactly when the parsed value is
truthy, with no enum validation; observations appears exactly when the
parsed value is a sequence, with no element validation; otherwise each
optional field is omitted, not defaulted. -/
theorem claim6_optional_fields (v : Json) (r : EyebagAnalysis)
    (h : sanitize10 v = some r) :
    (∀ j : Json, getField v "confidenceScore" = some j → truthy j = true →
      r.confidenceScore = some (clampRaw j)) ∧
    (truthyO (getField v "confidenceScore") = false → r.confidenceScore = none) ∧
    (∀ j : Json, getField v "lightingQuality" = some j → truthy j = true →
      r.lightingQuality = some j) ∧
    (truthyO (getField v "lightingQuality") = false → r.lightingQuality = none) ∧
    (∀ xs : List Json, getField v "observations" = some (Json.arr xs) →
      r.observations = some xs) ∧
    ((∀ xs : List Json, getField v "observations" ≠ some (Json.arr xs)) →
      r.observations = none) := by
  rw [sanitize10_eq v r h]
  refine ⟨?_, ?_, ?_, ?_, ?_, ?_⟩
  · intro j hj ht
    show (match getField v "confidenceScore" with
          | some j => if truthy j then some (clampRaw j) else none
          | none => none) = some (clampRaw j)
    rw [hj]
    exact if_pos ht
  · intro hf
    cases o : getField v "confidenceScore" with
    | none => rfl
    | some j =>
      rw [o] at hf
      have hf2 : truthy j = false := hf
      show (if truthy j then some (clampRaw j) else none) = none
      refine if_neg ?_
      rw [hf2]
      exact Bool.false_ne_true
  · intro j hj ht
    show (match getField v "lightingQuality" with
          | some j => if truthy j then some j else none
          | none => none) = some j
    rw [hj]
    exact if_pos ht
  · intro hf
    cases o : getField v "lightingQuality" with
    | none => rfl
    | some j =>
      rw [o] at hf
      have hf2 : truthy j = false := hf
      show (if truthy j then some j else none) = none
      refine if_neg ?_
      rw [hf2]
      exact Bool.false_ne_true
  · intro xs hx
    show (match getField v "observations" with
          | some (Json.arr xs) => some xs
          | _ => none) = some xs
    rw [hx]
  · intro hno
    cases o : getField v "observations" with
    | none => rfl
    | some j =>
      cases j with
      | null => rfl
      | bool b => rfl
      | num n => rfl
      | str s => rfl
      | arr xs => exact absurd o (hno xs)
      | obj fs => rfl

/-- C6 witness: the amended optional-field behavior evaluated on a
parsed object carrying an out-of-range confidenceScore, an out-of-enum
lightingQuality and a non-string observations element. -/
theorem claim6_witness :
    (∀ j : Json, getField c6wObj "confidenceScore" = some j → truthy j = true →
      c6wRes.confidenceScore = some (clampRaw j)) ∧
    (truthyO (getField c6wObj "confidenceScore") = false →
      c6wRes.confidenceScore = none) ∧
    (∀ j : Json, getField c6wObj "lightingQuality" = some j → truthy j = true →
      c6wRes.lightingQuality = some j) ∧
    (truthyO (getField c6wObj "lightingQuality") = false →
      c6wRes.lightingQuality = none) ∧
    (∀ xs : List Json, getField c6wObj "observations" = some (Json.arr xs) →
      c6wRes.observations = some xs) ∧
    ((∀ xs : List Json, getField c6wObj "observations" ≠ some (Json.arr xs)) →
      c6wRes.observations = none) :=
  claim6_optional_fields c6wObj c6wRes rfl

/-- C7: normalizing a JSON object text wrapped in a Markdown code fence
(tagged json or untagged) yields the same outcome as normalizing the
unwrapped text, for any sanitizer variant. -/
theorem claim7_fence_equiv (parse : String → Option Json)
    (sanitize : Json → Option EyebagAnalysis)
    (fields : List (String × Json)) (j : String)
    (hj : parse j = some (Json.obj fields))
    (hhead : List.dropWhile isWs j.data = j.data)
    (htail : List.dropWhile isWs j.data.reverse = j.data.reverse)
    (hne : j ≠ "")
    (hf1 : parse (fenceTagged j) = none)
    (hf2 : parse (fencePlain j) = none) :
    runChain parse sanitize (some (Json.str (fenceTagged j))) =
      runChain parse sanitize (some (Json.str j)) ∧
    runChain parse sanitize (some (Json.str (fencePlain j))) =
      runChain parse sanitize (some (Json.str j)) := by
  have hdne : j.data ≠ [] := by
    intro h0
    apply hne
    cases j with
    | mk l =>
      rw [show l = ([] : List Char) from h0]
  have hrhs : runChain parse sanitize (some (Json.str j)) =
      (match sanitize (Json.obj fields) with
       | some r => AnalyzeOutcome.returned r
       | none => AnalyzeOutcome.thrown "TypeError: cannot read properties of null") := by
    simp only [runChain, jsCoerceString]
    rw [hj]
  constructor
  · have hlhs : runChain parse sanitize (some (Json.str (fenceTagged j))) =
        (match sanitize (catchRecover parse (fenceTagged j)) with
         | some r => AnalyzeOutcome.returned r
         | none => AnalyzeOutcome.thrown "TypeError: cannot read properties of null") := by
      simp only [runChain, jsCoerceString]
      rw [hf1]
    rw [hlhs, catchRecover_parsed parse (fenceTagged j) j fields
      (strippedOf_fenceTagged j hhead htail hdne) hne hj, hrhs]
  · have hlhs : runChain parse sanitize (some (Json.str (fencePlain j))) =
        (match sanitize (catchRecover parse (fencePlain j)) with
         | some r => AnalyzeOutcome.returned r
         | none => AnalyzeOutcome.thrown "TypeError: cannot read properties of null") := by
      simp only [runChain, jsCoerceString]
      rw [hf2]
    rw [hlhs, catchRecover_parsed parse (fencePlain j) j fields
      (strippedOf_fencePlain j hhead htail hdne) hne hj, hrhs]

/-- C7 witness: the fence equivalence evaluated on a one-character
object text recognized by a concrete parse. -/
theorem claim7_witness :
    (runChain c7Parse sanitize4 (some (Json.str (fenceTagged c7Json))) =
      runChain c7Parse sanitize4 (some (Json.str c7Json))) ∧
    (runChain c7Parse sanitize4 (some (Json.str (fencePlain c7Json))) =
      runChain c7Parse sanitize4 (some (Json.str c7Json))) :=
  claim7_fence_equiv c7Parse sanitize4 [] c7Json rfl rfl rfl (by decide) rfl rfl

/-- C8: on every parsed value the 4-level and 10-level sanitizers
produce identical darkness, puffiness, overallScore and recommendations;
they differ only in the severity enum and the optional fields. -/
theorem claim8_variants_agree (v : Json) :
    (sanitize4 v).map
      (fun r => (r.darkness, r.puffiness, r.overallScore, r.recommendations)) =
    (sanitize10 v).map
      (fun r => (r.darkness, r.puffiness, r.overallScore, r.recommendations)) := by
  cases v <;> rfl

/-- C9: in the 10-level variant, confidenceScore appears in the result
exactly when the parsed value is truthy; in particular a parsed
confidenceScore of exactly 0 is omitted even though 0 is inside the
declared range. -/
theorem claim9_confidence_truthy (v : Json) (r : EyebagAnalysis)
    (h : sanitize10 v = some r) :
    r.confidenceScore.isSome = truthyO (getField v "confidenceScore") ∧
    (getField v "confidenceScore" = some (Json.num 0) → r.confidenceScore = none) := by
  rw [sanitize10_eq v r h]
  constructor
  · show (match getField v "confidenceScore" with
          | some j => if truthy j then some (clampRaw j) else none
          | none => none).isSome = truthyO (getField v "confidenceScore")
    cases o : getField v "confidenceScore" with
    | none => rfl
    | some j =>
      show (if truthy j then some (clampRaw j) else none).isSome = truthy j
      cases ht : truthy j
      · rfl
      · rfl
  · intro h0
    show (match getField v "confidenceScore" with
          | some j => if truthy j then some (clampRaw j) else none
          | none => none) = none
    rw [h0]
    rfl

/-- C9 witness: the truthiness behavior evaluated on a parsed object
with confidenceScore 0. -/
theorem claim9_witness :
    c9Res.confidenceScore.isSome = truthyO (getField c9Obj "confidenceScore") ∧
    (getField c9Obj "confidenceScore" = some (Json.num 0) →
      c9Res.confidenceScore = none) :=
  claim9_confidence_truthy c9Obj c9Res rfl

/-- C10: in both variants an empty recommendations sequence passes
through as the empty sequence; the fallback only replaces non-sequence
values, so the UI can receive zero recommendations. -/
theorem claim10_empty_recs (v : Json) (r4 r10 : EyebagAnalysis)
    (h4 : sanitize4 v = some r4) (h10 : sanitize10 v = some r10)
    (he : getField v "recommendations" = some (Json.arr [])) :
    r4.recommendations = [] ∧ r10.recommendations = [] := by
  rw [sanitize4_eq v r4 h4, sanitize10_eq v r10 h10]
  constructor
  · show pickRecs (getField v "recommendations") = []
    rw [he]
    rfl
  · show pickRecs (getField v "recommendations") = []
    rw [he]
    rfl

/-- C10 witness: the empty-sequence pass-through evaluated on a parsed
object with an empty recommendations array. -/
theorem claim10_witness :
    c10Res.recommendations = [] ∧ c10Res.recommendations = [] :=
  claim10_empty_recs c10Obj c10Res c10Res rfl rfl rfl

end BagScoreLab
